import Mathlib

/-!
# Verification of `NextjsSite` (packages/sst/src/constructs/NextjsSite.ts)

A shallow embedding of the configuration-assembly logic of the `NextjsSite`
construct: CloudFront routing tables for the regional and edge variants,
the revalidation pipeline, the image-optimization function lifecycle,
memory-size resolution, the server cache policy and the build-id accessor.
Definitions are translated from the TypeScript source; the few pieces that
live outside this file (the size utility and the base class's cache-policy
builder) are modelled from the specification and are marked as such.
-/

namespace NextjsSite

/-- The kind of origin a CloudFront cache behavior routes to: the server
function (regional `SsrFunction` URL or edge function), or the image
optimization function's URL. -/
inductive BehaviorKind where
  | server
  | image
  deriving DecidableEq, Repr

/-- A CloudFront routing table as assembled by the construct: the default
behavior plus an ordered association list of additional behaviors keyed by
path pattern (JavaScript object literal keys, in insertion order). -/
structure RoutingTable where
  defaultBehavior : BehaviorKind
  additionalBehaviors : List (String × BehaviorKind)
  deriving DecidableEq, Repr

/-- JavaScript object-spread merge `\x7b ...base, ...extra \x7d`: keys of
`base` keep their position, with values overridden by `extra` when the key
occurs there; keys of `extra` not in `base` follow in `extra`'s order. -/
def objMerge (base extra : List (String × BehaviorKind)) :
    List (String × BehaviorKind) :=
  base.map (fun kv => (kv.1, ((extra.lookup kv.1).getD kv.2)))
    ++ extra.filter (fun kv => (base.lookup kv.1).isNone)

/-- `pathPattern(basePath = '')` from NextjsSite.ts line 33: returns a
function prefixing a pattern with the base path when the base path is a
non-empty string (TypeScript truthiness of `basePath && basePath.length > 0`). -/
def pathPattern (basePath : String) : String → String :=
  fun pattern =>
    if basePath ≠ "" ∧ basePath.length > 0 then basePath ++ pattern
    else pattern

/-- `createCloudFrontDistributionForRegional` (lines 260-337), restricted to
the routing table it passes to the `Distribution` construct. `basePath` is
`none` when the prop is undefined (the destructuring default makes it `""`);
`userAdditional` is `cfDistributionProps.additionalBehaviors || \x7b\x7d`,
spread last over the three fixed behaviors. -/
def createCloudFrontDistributionForRegional (basePath : Option String)
    (userAdditional : List (String × BehaviorKind)) : RoutingTable :=
  let normalizedPath := pathPattern (basePath.getD "")
  { defaultBehavior := .server
    additionalBehaviors :=
      objMerge
        [ (normalizedPath "/api/*", .server)
        , (normalizedPath "_next/data/*", .server)
        , (normalizedPath "_next/image*", .image) ]
        userAdditional }

/-- `createCloudFrontDistributionForEdge` (lines 339-364), restricted to the
routing table it passes to the `Distribution` construct. No base path is
consulted; the three fixed patterns are literal keys of the object. -/
def createCloudFrontDistributionForEdge
    (userAdditional : List (String × BehaviorKind)) : RoutingTable :=
  { defaultBehavior := .server
    additionalBehaviors :=
      objMerge
        [ ("api/*", .server)
        , ("_next/data/*", .server)
        , ("_next/image*", .image) ]
        userAdditional }

/-- A server function handle (`SsrFunction` / `EdgeFunction`) as seen by
`createRevalidation`: only its possibly-undefined IAM role reference matters
to the code under verification (`server?.role!`, line 143). -/
structure ServerFunction where
  role : Option String
  deriving DecidableEq, Repr

/-- The SQS queue created at lines 123-126: `fifo: true`,
`receiveMessageWaitTime: CdkDuration.seconds(20)`. -/
structure RevalidationQueue where
  fifo : Bool
  receiveMessageWaitTimeSeconds : Nat
  deriving DecidableEq, Repr

/-- The consumer Lambda created at lines 127-137 together with its SQS event
source (`SqsEventSource(queue, \x7b batchSize: 5 \x7d)`). -/
structure RevalidationConsumer where
  description : String
  handler : String
  runtime : String
  timeoutSeconds : Nat
  eventSourceBatchSize : Nat
  deriving DecidableEq, Repr

/-- The resources and side effects produced by one run of
`createRevalidation` that did not early-return: the queue, the consumer,
the server reference in scope at line 140, the argument passed to
`queue.grantSendMessages` (the value of `server?.role`, whose `!` is a
compile-time-only assertion), and the environment entries added to the
server via `addEnvironment`. -/
structure RevalidationResources where
  queue : RevalidationQueue
  consumer : RevalidationConsumer
  server : Option ServerFunction
  grantSendMessagesTo : Option String
  serverEnvironmentAdded : List (String × String)
  deriving DecidableEq, Repr

/-- `createRevalidation` (lines 118-144). Returns `none` when the guard
`!this.serverLambdaForRegional && !this.serverLambdaForEdge` fires (no
resource is created), otherwise the created resources. `queueUrl` and
`region` stand for `queue.queueUrl` and `Stack.of(this).region`. -/
def createRevalidation (serverLambdaForRegional serverLambdaForEdge :
    Option ServerFunction) (queueUrl region : String) :
    Option RevalidationResources :=
  if serverLambdaForRegional.isNone && serverLambdaForEdge.isNone then none
  else
    let server := serverLambdaForRegional <|> serverLambdaForEdge
    some
      { queue := { fifo := true, receiveMessageWaitTimeSeconds := 20 }
        consumer :=
          { description := "Next.js revalidator"
            handler := "index.handler"
            runtime := "nodejs18.x"
            timeoutSeconds := 30
            eventSourceBatchSize := 5 }
        server := server
        grantSendMessagesTo := server.bind ServerFunction.role
        serverEnvironmentAdded :=
          if server.isSome then
            [ ("REVALIDATION_QUEUE_URL", queueUrl)
            , ("REVALIDATION_QUEUE_REGION", region) ]
          else [] }

/-- The memory-size prop: `number | Size` where `Size` is a human-readable
string such as `"512 MB"`. -/
inductive MemorySizeInput where
  | num (n : Nat)
  | str (s : String)
  deriving DecidableEq, Repr

/-- Split a character list at its first space: the part before and the part
after, or `none` when no space occurs. -/
def splitAtSpace : List Char → Option (List Char × List Char)
  | [] => none
  | c :: cs =>
      if c = ' ' then some ([], cs)
      else (splitAtSpace cs).map (fun p => (c :: p.1, p.2))

/-- Parse a non-empty all-digit character list as a decimal natural. -/
def parseDigits (cs : List Char) : Option Nat :=
  if cs ≠ [] ∧ cs.all Char.isDigit then
    some (cs.foldl (fun acc c => acc * 10 + (c.toNat - 48)) 0)
  else none

/-- Modelled from the spec: `toCdkSize` from `./util/size.js` is not part of
the given sources. The spec describes the memory-size option as "numeric or
human-readable size string" (e.g. `"512 MB"`); the construct converts such a
string to mebibytes via `toCdkSize(...).toMebibytes()`. Modelled as parsing
`"<n> MB"` as `n` mebibytes and `"<n> GB"` as `n * 1024` mebibytes, `none`
on any other shape. -/
def toCdkSizeMebibytes (s : String) : Option Nat :=
  match splitAtSpace s.data with
  | some (count, unit) =>
      if unit = "MB".data then parseDigits count
      else if unit = "GB".data then (parseDigits count).map (· * 1024)
      else none
  | none => none

/-- TypeScript truthiness of an `imageOptimization?.memorySize` value: `0`
and `""` are falsy, everything else truthy. -/
def MemorySizeInput.truthy : MemorySizeInput → Bool
  | .num n => n ≠ 0
  | .str s => s ≠ ""

/-- The `memorySize` expression of `createImageOptimizationFunction`
(lines 223-227): a truthy string is converted with
`toCdkSize(...).toMebibytes()`, a truthy number is used as-is, and a falsy
or absent value falls back to `1536`. `none` in the result only when the
string fails to parse (where the real utility would throw). -/
def resolveImageMemorySize : Option MemorySizeInput → Option Nat
  | some v =>
      if v.truthy then
        match v with
        | .str s => toCdkSizeMebibytes s
        | .num n => some n
      else some 1536
  | none => some 1536

/-- A Lambda `code` property for the image function: either inline source or
an S3 location triple, mirroring `Code.fromInline` versus the
`\x7b s3Bucket, s3Key, s3ObjectVersion \x7d` assignment at lines 249-253. -/
structure LambdaCode where
  inline : Option String
  s3Bucket : Option String
  s3Key : Option String
  s3ObjectVersion : Option String
  deriving DecidableEq, Repr

/-- The image-optimization Lambda resource as configured at lines 214-240.
`constructPath` stands for the CDK construct-tree address
(`this/ImageFunction`) that identifies the resource; the deferred callback
mutates fields of this same resource rather than creating a new one. -/
structure ImageFunction where
  constructPath : String
  description : String
  handler : String
  memorySizeMB : Option Nat
  timeoutSeconds : Nat
  architecture : String
  code : LambdaCode
  deriving DecidableEq, Repr

/-- An S3 location of the built image-optimization bundle, as produced by
`Code.fromAsset(...).bind(fn)` in the deferred callback (lines 245-248). -/
structure S3Location where
  bucketName : String
  objectKey : String
  objectVersion : Option String
  deriving DecidableEq, Repr

/-- The eager phase of `createImageOptimizationFunction` (lines 211-240):
the function is created with the inline no-op placeholder
`"export function handler() \x7b\x7d"` as its code. -/
def createImageOptimizationFunction
    (imageOptimizationMemorySize : Option MemorySizeInput) : ImageFunction :=
  { constructPath := "ImageFunction"
    description := "Next.js image optimizer"
    handler := "index.handler"
    memorySizeMB := resolveImageMemorySize imageOptimizationMemorySize
    timeoutSeconds := 25
    architecture := "arm_64"
    code :=
      { inline := some "export function handler() {}"
        s3Bucket := none, s3Key := none, s3ObjectVersion := none } }

/-- The deferred callback registered at lines 243-255: it overwrites
`cfnFunction.code` of the already-created resource with the S3 triple of the
built bundle. Every other field of the resource, in particular its identity
(`constructPath`), is untouched. -/
def applyDeferredImageCodeUpdate (bundle : S3Location)
    (fn : ImageFunction) : ImageFunction :=
  { fn with
      code :=
        { inline := none
          s3Bucket := some bundle.bucketName
          s3Key := some bundle.objectKey
          s3ObjectVersion := bundle.objectVersion } }

/-- A CloudFront cache policy, restricted to its header allow-list. -/
structure CachePolicy where
  headerAllowList : List String
  deriving DecidableEq, Repr

/-- Modelled from the spec: `SsrSite.useServerBehaviorCachePolicy` (the
`super` call target, defined in `SsrSite.ts`, not among the given sources)
is "parameterized by an allow-list of headers": it builds the cache policy
whose header allow-list is exactly its argument. -/
def ssrSiteUseServerBehaviorCachePolicy (allowedHeaders : List String) :
    CachePolicy :=
  { headerAllowList := allowedHeaders }

/-- `useServerBehaviorCachePolicy` (lines 366-374): forwards the five
Next.js routing headers to the base-class builder. -/
def useServerBehaviorCachePolicy : CachePolicy :=
  ssrSiteUseServerBehaviorCachePolicy
    [ "accept"
    , "rsc"
    , "next-router-prefetch"
    , "next-router-state-tree"
    , "next-url" ]

/-- The cache-policy selection `cdk?.serverCachePolicy ??
this.useServerBehaviorCachePolicy()` (lines 391-392). -/
def effectiveServerCachePolicy (serverCachePolicy : Option CachePolicy) :
    CachePolicy :=
  serverCachePolicy.getD useServerBehaviorCachePolicy

/-- A file system for the build-id accessor: an association list from paths
to file contents. -/
def FileSystem := List (String × String)

/-- Node's `fs.readFileSync(...).toString()`: the file's contents, or a
thrown `ENOENT` error when no file exists at the path. -/
def readFileSync (fsys : FileSystem) (p : String) : Except String String :=
  match List.lookup p fsys with
  | some contents => .ok contents
  | none => .error ("ENOENT: no such file or directory, open " ++ p)

/-- `generateBuildId` (lines 415-418): reads
`path.join(this.props.path, ".next/BUILD_ID")` and propagates any read
error. Node's `path.join` is modelled as separator concatenation. -/
def generateBuildId (fsys : FileSystem) (sitePath : String) :
    Except String String :=
  readFileSync fsys (sitePath ++ "/" ++ ".next/BUILD_ID")

lemma length_pos_of_ne_empty (s : String) (h : s ≠ "") : 0 < s.length := by
  cases s with
  | mk data =>
    cases data with
    | nil => exact absurd rfl h
    | cons a l => simp [String.length]

lemma pathPattern_of_ne (q : String) (h : q ≠ "") (pat : String) :
    pathPattern q pat = q ++ pat := by
  simp [pathPattern, h, length_pos_of_ne_empty q h]

lemma pathPattern_empty (pat : String) : pathPattern "" pat = pat := by
  simp [pathPattern]

/-- **C1.** For every base-path value `p`, the regional distribution's
routing table has the default server behavior plus exactly the additional
behaviors `\x7bp\x7d/api/*` and `\x7bp\x7d_next/data/*` routed to the
server and `\x7bp\x7d_next/image*` routed to the image function (with no
user-supplied `additionalBehaviors` override); when `p` is empty or
undefined the patterns are the bare `/api/*`, `_next/data/*`,
`_next/image*`. -/
theorem regional_routing_table (p : Option String) :
    (createCloudFrontDistributionForRegional p []).defaultBehavior
        = .server ∧
    (createCloudFrontDistributionForRegional p []).additionalBehaviors
        = (if p.getD "" = "" then
            [ ("/api/*", BehaviorKind.server)
            , ("_next/data/*", BehaviorKind.server)
            , ("_next/image*", BehaviorKind.image) ]
          else
            [ (p.getD "" ++ "/api/*", BehaviorKind.server)
            , (p.getD "" ++ "_next/data/*", BehaviorKind.server)
            , (p.getD "" ++ "_next/image*", BehaviorKind.image) ]) := by
  refine ⟨rfl, ?_⟩
  by_cases hq : p.getD "" = ""
  · simp [createCloudFrontDistributionForRegional, objMerge, hq,
      pathPattern_empty]
  · simp [createCloudFrontDistributionForRegional, objMerge, hq,
      pathPattern_of_ne _ hq]

/-- **C2, counterexample.** The claim says the edge routing table contains
the override pattern `/api/*`; in fact its API pattern is `api/*` without a
leading slash, so `/api/*` is not among its patterns and the claimed
pattern list differs from the actual one. -/
theorem edge_routing_table_claim_false :
    ("/api/*" ∉
      (createCloudFrontDistributionForEdge []).additionalBehaviors.map
        Prod.fst) ∧
    (createCloudFrontDistributionForEdge []).additionalBehaviors.map
        Prod.fst ≠ ["/api/*", "_next/data/*", "_next/image*"] := by
  decide

/-- **C2, amended.** The edge-variant distribution applies no base path
(none is consulted), and its routing table contains exactly the explicit
override patterns `api/*` (without a leading slash, unlike the regional
variant's `/api/*`), `_next/data/*` and `_next/image*`, plus the default
server behavior. -/
theorem edge_routing_table :
    (createCloudFrontDistributionForEdge []).defaultBehavior = .server ∧
    (createCloudFrontDistributionForEdge []).additionalBehaviors
      = [ ("api/*", BehaviorKind.server)
        , ("_next/data/*", BehaviorKind.server)
        , ("_next/image*", BehaviorKind.image) ] := by
  decide

/-- **C3.** When neither a regional nor an edge server function exists,
`createRevalidation` returns without creating any resource: no queue, no
consumer, no grant, no environment change. -/
theorem createRevalidation_noop (queueUrl region : String) :
    createRevalidation none none queueUrl region = none := by
  simp [createRevalidation]

/-- **C4.** Whenever a server function exists, `createRevalidation` creates
a FIFO queue with 20-second receive wait, a consumer subscribed with batch
size 5, passes the server's role to `grantSendMessages`, and adds
`REVALIDATION_QUEUE_URL` and `REVALIDATION_QUEUE_REGION` to the server's
environment. -/
theorem createRevalidation_creates (regional edge : Option ServerFunction)
    (queueUrl region : String)
    (h : regional.isSome ∨ edge.isSome) :
    ∃ r, createRevalidation regional edge queueUrl region = some r ∧
      r.queue.fifo = true ∧
      r.queue.receiveMessageWaitTimeSeconds = 20 ∧
      r.consumer.eventSourceBatchSize = 5 ∧
      r.grantSendMessagesTo
        = ((regional <|> edge)).bind ServerFunction.role ∧
      r.serverEnvironmentAdded
        = [ ("REVALIDATION_QUEUE_URL", queueUrl)
          , ("REVALIDATION_QUEUE_REGION", region) ] := by
  rcases regional with _ | r1 <;> rcases edge with _ | e1
  · simp [Option.isSome] at h
  · exact ⟨_, rfl, rfl, rfl, rfl, rfl, rfl⟩
  · exact ⟨_, rfl, rfl, rfl, rfl, rfl, rfl⟩
  · exact ⟨_, rfl, rfl, rfl, rfl, rfl, rfl⟩

/-- **C4, witness.** Instantiation at a concrete regional server function. -/
theorem createRevalidation_creates_witness :
    ∃ r, createRevalidation (some ⟨some "serverRole"⟩) none "qUrl" "us-east-1"
        = some r ∧
      r.queue.fifo = true ∧
      r.queue.receiveMessageWaitTimeSeconds = 20 ∧
      r.consumer.eventSourceBatchSize = 5 ∧
      r.grantSendMessagesTo
        = (((some ⟨some "serverRole"⟩ : Option ServerFunction) <|> none)).bind
            ServerFunction.role ∧
      r.serverEnvironmentAdded
        = [ ("REVALIDATION_QUEUE_URL", "qUrl")
          , ("REVALIDATION_QUEUE_REGION", "us-east-1") ] :=
  createRevalidation_creates (some ⟨some "serverRole"⟩) none "qUrl" "us-east-1"
    (Or.inl (by decide))

/-- **C5, counterexample.** The claim's universal equivalence fails at 0:
in `imageOptimization?.memorySize ? ... : 1536` the number `0` is falsy and
falls back to `1536`, while the string `"0 MB"` is truthy and resolves to
`0`, so the two equivalent inputs resolve to different values. -/
theorem memorySize_zero_inequivalent :
    resolveImageMemorySize (some (.str "0 MB")) = some 0 ∧
    resolveImageMemorySize (some (.num 0)) = some 1536 ∧
    resolveImageMemorySize (some (.str "0 MB"))
      ≠ resolveImageMemorySize (some (.num 0)) := by
  decide

/-- **C5, amended.** `createImageOptimizationFunction` accepts both a raw
number and a human-readable size string for
`imageOptimization.memorySize`, and for every positive memory value the
equivalent inputs — a string parsing to `n` mebibytes and the number `n`,
with `n > 0` — resolve to the same numeric memory value `n`; the number
`0` is excluded because it is falsy and falls back to the 1536 default
while the string `"0 MB"` resolves to `0`. -/
theorem memorySize_string_number_equivalent (s : String) (n : Nat)
    (hp : toCdkSizeMebibytes s = some n) (hn : 0 < n) :
    resolveImageMemorySize (some (.str s)) = some n ∧
    resolveImageMemorySize (some (.num n)) = some n := by
  have hs : s ≠ "" := by
    intro h
    subst h
    simp [toCdkSizeMebibytes, splitAtSpace] at hp
  constructor
  · simp [resolveImageMemorySize, MemorySizeInput.truthy, hs, hp]
  · simp [resolveImageMemorySize, MemorySizeInput.truthy, hn.ne']

/-- **C5, witness.** The string `"512 MB"` and the number `512` both
resolve to `512`. -/
theorem memorySize_string_number_equivalent_witness :
    resolveImageMemorySize (some (.str "512 MB")) = some 512 ∧
    resolveImageMemorySize (some (.num 512)) = some 512 :=
  memorySize_string_number_equivalent "512 MB" 512 (by decide) (by decide)

/-- **C6.** When the `BUILD_ID` file at `\x7bsite path\x7d/.next/BUILD_ID`
is absent, `generateBuildId` fails by propagating the underlying file-read
error; it never silently returns a value, in particular never the empty
string. -/
theorem generateBuildId_fails_when_absent (fsys : FileSystem)
    (sitePath : String)
    (h : List.lookup (sitePath ++ "/" ++ ".next/BUILD_ID") fsys = none) :
    (∃ e, generateBuildId fsys sitePath = .error e) ∧
    ∀ s, generateBuildId fsys sitePath ≠ .ok s := by
  constructor
  · exact ⟨"ENOENT: no such file or directory, open "
        ++ (sitePath ++ "/" ++ ".next/BUILD_ID"),
      by simp [generateBuildId, readFileSync, h]⟩
  · intro s
    simp [generateBuildId, readFileSync, h]

/-- **C6, witness.** On an empty file system the accessor errors. -/
theorem generateBuildId_fails_when_absent_witness :
    (∃ e, generateBuildId [] "my-next-app" = .error e) ∧
    ∀ s, generateBuildId [] "my-next-app" ≠ .ok s :=
  generateBuildId_fails_when_absent [] "my-next-app" rfl

/-- **C7.** Unless the caller supplies `cdk.serverCachePolicy`, the server
cache policy allow-lists exactly the five headers `accept`, `rsc`,
`next-router-prefetch`, `next-router-state-tree`, `next-url` — no more and
no fewer. -/
theorem serverCachePolicy_default_headers :
    (effectiveServerCachePolicy none).headerAllowList
      = [ "accept"
        , "rsc"
        , "next-router-prefetch"
        , "next-router-state-tree"
        , "next-url" ] := rfl

/-- **C8.** The image optimization function is created eagerly with the
no-op inline placeholder as its code; the deferred callback replaces the
code with the built bundle's S3 bucket/key/version triple, so the deployed
code differs before versus after the callback runs, while the resource
itself (its construct-tree identity and every other property) is never
replaced. -/
theorem imageFunction_code_lifecycle (m : Option MemorySizeInput)
    (bundle : S3Location) :
    (createImageOptimizationFunction m).code.inline
        = some "export function handler() {}" ∧
    (createImageOptimizationFunction m).code.s3Bucket = none ∧
    (applyDeferredImageCodeUpdate bundle
        (createImageOptimizationFunction m)).code
      = { inline := none
          s3Bucket := some bundle.bucketName
          s3Key := some bundle.objectKey
          s3ObjectVersion := bundle.objectVersion } ∧
    (applyDeferredImageCodeUpdate bundle
        (createImageOptimizationFunction m)).code
      ≠ (createImageOptimizationFunction m).code ∧
    (applyDeferredImageCodeUpdate bundle
        (createImageOptimizationFunction m)).constructPath
      = (createImageOptimizationFunction m).constructPath ∧
    (applyDeferredImageCodeUpdate bundle
        (createImageOptimizationFunction m)).memorySizeMB
      = (createImageOptimizationFunction m).memorySizeMB := by
  refine ⟨rfl, rfl, rfl, ?_, rfl, rfl⟩
  intro hcontra
  have := congrArg LambdaCode.inline hcontra
  simp [applyDeferredImageCodeUpdate, createImageOptimizationFunction]
    at this

/-- **C9, counterexample.** The claim asserts some reachable execution of
`createRevalidation` reaches the `grantSendMessages` call with a null
server reference; in fact the early return makes the server reference
non-null in every execution that reaches the call. -/
theorem createRevalidation_server_null_unreachable :
    ¬ ∃ (regional edge : Option ServerFunction) (queueUrl region : String)
        (r : RevalidationResources),
        createRevalidation regional edge queueUrl region = some r ∧
        r.server = none := by
  rintro ⟨regional, edge, queueUrl, region, r, hr, hnull⟩
  rcases regional with _ | r1 <;> rcases edge with _ | e1
  · simp [createRevalidation] at hr
  all_goals
    simp [createRevalidation] at hr
    subst hr
    simp at hnull

/-- **C9, amended.** At the `grantSendMessages` call site the server
reference is always non-null (the early return guarantees a server
function exists); the non-null assertion in `server?.role!` guards the
possibly-undefined role, which is what is passed to the grant. -/
theorem createRevalidation_grant_guard :
    (∀ (regional edge : Option ServerFunction) (queueUrl region : String)
        (r : RevalidationResources),
        createRevalidation regional edge queueUrl region = some r →
        r.server.isSome = true ∧
        r.grantSendMessagesTo = r.server.bind ServerFunction.role) ∧
    (∃ r, createRevalidation (some ⟨none⟩) none "qUrl" "us-east-1"
        = some r ∧ r.grantSendMessagesTo = none) := by
  constructor
  · intro regional edge queueUrl region r hr
    rcases regional with _ | r1 <;> rcases edge with _ | e1
    · simp [createRevalidation] at hr
    all_goals
      simp [createRevalidation] at hr
      subst hr
      exact ⟨rfl, rfl⟩
  · exact ⟨_, rfl, rfl⟩

/-- **C9, amended, witness.** Instantiation of the universal part at a
concrete input. -/
theorem createRevalidation_grant_guard_witness :
    ∃ r, createRevalidation (some ⟨some "roleArn"⟩) none "qUrl" "us-east-1"
        = some r ∧
      r.server.isSome = true ∧
      r.grantSendMessagesTo = r.server.bind ServerFunction.role :=
  ⟨_, rfl, createRevalidation_grant_guard.1 (some ⟨some "roleArn"⟩) none
    "qUrl" "us-east-1" _ rfl⟩

/-- **C10.** When `imageOptimization.memorySize` is omitted, the image
optimization function's memory size is 1536 MB — not the 1024 MB stated as
the default in the `NextjsSiteProps` doc comment. -/
theorem imageFunction_default_memory_1536 :
    (createImageOptimizationFunction none).memorySizeMB = some 1536 ∧
    (createImageOptimizationFunction none).memorySizeMB ≠ some 1024 := by
  exact ⟨rfl, by simp [createImageOptimizationFunction,
    resolveImageMemorySize]⟩

end NextjsSite
